import Mathlib

/-!
Verification development for the wrds2postgres synchronization tool
(src/wrds2postgres/wrds2postgres.py).

The pure decision logic of the source is embedded shallowly:

* `code_row` — the PostgreSQL type mapper (`code_row`, lines 52-81);
* `get_row_sql`, `get_table_sql_plan` — the schema translation
  (`get_row_sql` lines 88-94 and the pure tail of `get_table_sql`,
  lines 158-170);
* `new_table_name` — the 32-character SAS dataset-name truncation
  (`get_wrds_process`, lines 227-230);
* `get_wrds_process_req` — the SAS export-request generation
  (`get_wrds_process`, lines 172-274);
* `wrds_update_model` — the configuration gate and freshness decision of
  `wrds_update` (lines 420-476), with the external effects (remote
  requests, database statements) recorded as an explicit trace.

Pandas rows are embedded as a structure `ColumnDescriptor`; a missing
(`NaN`) format is `Option.none`; Python case-insensitive `re.search` over
the literal patterns used by the source is `reSearchCI` (lower-cased
substring search).
-/

/-- A row of the PROC CONTENTS output consumed by `code_row`:
column name, SAS display format (absent = NaN in pandas), format decimal
count `formatd`, format length `formatl`, and SAS type code
(`2` = character, else numeric). -/
structure ColumnDescriptor where
  name : String
  format : Option String
  formatd : Int
  formatl : Int
  type : Int
deriving DecidableEq, Repr

/-- Does `pat` occur as a contiguous sublist of `s`? (Boolean). -/
def listContains (pat : List Char) : List Char → Bool
  | [] => pat.isEmpty
  | c :: rest => decide (pat = (c :: rest).take pat.length) || listContains pat rest

/-- Model of Python `re.search(pat, s, re.I)` for the plain-literal
patterns the source uses (and, for the alternation pattern
`(date|yymmdd|mmddyy)`, of one branch of the alternation): search for
`pat` as a case-insensitive substring of `s`. -/
def reSearchCI (pat s : String) : Bool :=
  listContains (pat.data.map Char.toLower) (s.data.map Char.toLower)

/-- The tail of `code_row` (lines 72-81): the numeric rules that run when
the type code is not character and no date/time format matched.
`format_` is still in scope there, so it is passed along. -/
def numericCode (format_ : Option String) (formatd formatl : Int) : String :=
  if format_ = some "BEST" then "float8"
  else if formatd ≠ 0 then "float8"
  else if formatd = 0 ∧ formatl ≠ 0 then "int8"
  else if formatd = 0 ∧ formatl = 0 then "float8"
  else "text"

/-- Embedding of `code_row` (lines 52-81): maps one PROC CONTENTS row to
a PostgreSQL type name.  `pd.isnull(format_)` is the `Option` match. -/
def code_row (row : ColumnDescriptor) : String :=
  if row.type = 2 then "text"
  else
    match row.format with
    | some f =>
        if reSearchCI "datetime" f then "timestamp"
        else if f = "TIME8." ∨ reSearchCI "time" f ∨ f = "TOD" then "time"
        else if reSearchCI "date" f ∨ reSearchCI "yymmdd" f ∨ reSearchCI "mmddyy" f then "date"
        else numericCode (some f) row.formatd row.formatl
    | none => numericCode none row.formatd row.formatl

/-- Written from the spec: does the column's format (when present) match
`pat` case-insensitively?  An absent format matches nothing. -/
def specFmtSearch (c : ColumnDescriptor) (pat : String) : Bool :=
  match c.format with
  | some f => reSearchCI pat f
  | none => false

/-- Written from the spec (§4.1): the 9-rule first-match-wins reference
procedure for the destination type, exactly as the spec words it. -/
def specDecide (c : ColumnDescriptor) : String :=
  if c.type = 2 then "text"
  else if specFmtSearch c "datetime" then "timestamp"
  else if c.format = some "TIME8." ∨ c.format = some "TOD" ∨ specFmtSearch c "time" then "time"
  else if specFmtSearch c "date" ∨ specFmtSearch c "yymmdd" ∨ specFmtSearch c "mmddyy" then "date"
  else if c.format = some "BEST" then "float8"
  else if c.formatd ≠ 0 then "float8"
  else if c.formatd = 0 ∧ c.formatl ≠ 0 then "int8"
  else if c.formatd = 0 ∧ c.formatl = 0 then "float8"
  else "text"

example : code_row ⟨"dt", some "DATETIME20.", 0, 0, 1⟩ = "timestamp" := by decide
example : code_row ⟨"d", some "MMDDYY10.", 0, 0, 1⟩ = "date" := by decide
example : code_row ⟨"t", some "TIME8.", 0, 0, 1⟩ = "time" := by decide
example : code_row ⟨"b", some "BEST", 0, 0, 1⟩ = "float8" := by decide
example : code_row ⟨"n", none, 2, 8, 1⟩ = "float8" := by decide
example : code_row ⟨"n", none, 0, 8, 1⟩ = "int8" := by decide
example : code_row ⟨"n", none, 0, 0, 1⟩ = "float8" := by decide
example : code_row ⟨"c", some "DATETIME20.", 0, 0, 2⟩ = "text" := by decide

/-- C1: for every well-formed ColumnDescriptor, `code_row` computes
exactly the destination type prescribed by the spec's 9-rule
first-match-wins reference procedure. -/
theorem code_row_matches_spec_procedure (c : ColumnDescriptor) :
    code_row c = specDecide c := by
  obtain ⟨n, f, d, l, t⟩ := c
  cases f with
  | none => simp [code_row, specDecide, specFmtSearch, numericCode]
  | some f =>
      simp only [code_row, specDecide, specFmtSearch, numericCode, Option.some.injEq]
      split_ifs <;> first | rfl | tauto

/-- The numeric tail of `code_row` returns one of the three numeric SQL
type names; its final `text` fallthrough is dead when the decimal and
length counts are integers. -/
theorem numericCode_ne_text (fo : Option String) (d l : Int) :
    numericCode fo d l ≠ "text" := by
  unfold numericCode
  split_ifs with h1 h2 h3 h4
  · decide
  · decide
  · decide
  · decide
  · exfalso; tauto

/-- `code_row` always returns one of the six destination type names. -/
theorem code_row_total (c : ColumnDescriptor) :
    code_row c = "text" ∨ code_row c = "timestamp" ∨ code_row c = "time" ∨
      code_row c = "date" ∨ code_row c = "float8" ∨ code_row c = "int8" := by
  obtain ⟨n, f, d, l, t⟩ := c
  cases f with
  | none =>
      simp only [code_row, numericCode]
      split_ifs <;> simp
  | some f =>
      simp only [code_row, numericCode]
      split_ifs <;> simp

/-- C5: `code_row` is total (always returns one of the six destination
type names) and is a pure function of the four fields format, formatd,
formatl and type — the column name does not influence the result. -/
theorem code_row_pure_in_four_fields (c₁ c₂ : ColumnDescriptor)
    (hf : c₁.format = c₂.format) (hd : c₁.formatd = c₂.formatd)
    (hl : c₁.formatl = c₂.formatl) (ht : c₁.type = c₂.type) :
    code_row c₁ = code_row c₂ ∧
      (code_row c₁ = "text" ∨ code_row c₁ = "timestamp" ∨ code_row c₁ = "time" ∨
        code_row c₁ = "date" ∨ code_row c₁ = "float8" ∨ code_row c₁ = "int8") := by
  obtain ⟨n₁, f₁, d₁, l₁, t₁⟩ := c₁
  obtain ⟨n₂, f₂, d₂, l₂, t₂⟩ := c₂
  simp_all only
  exact ⟨rfl, code_row_total ⟨n₁, f₂, d₂, l₂, t₂⟩⟩

theorem code_row_pure_in_four_fields_witness :
    code_row ⟨"permno", none, 0, 8, 1⟩ = code_row ⟨"cusip", none, 0, 8, 1⟩ ∧
      (code_row ⟨"permno", none, 0, 8, 1⟩ = "text" ∨
        code_row ⟨"permno", none, 0, 8, 1⟩ = "timestamp" ∨
        code_row ⟨"permno", none, 0, 8, 1⟩ = "time" ∨
        code_row ⟨"permno", none, 0, 8, 1⟩ = "date" ∨
        code_row ⟨"permno", none, 0, 8, 1⟩ = "float8" ∨
        code_row ⟨"permno", none, 0, 8, 1⟩ = "int8") :=
  code_row_pure_in_four_fields ⟨"permno", none, 0, 8, 1⟩ ⟨"cusip", none, 0, 8, 1⟩
    rfl rfl rfl rfl

/-- C9: for a non-character column (type code ≠ 2) with integer decimal
and length counts, `code_row` returns one of timestamp, time, date,
float8, int8 — never text: the final text fallback is unreachable. -/
theorem code_row_numeric_never_text (c : ColumnDescriptor) (h : c.type ≠ 2) :
    (code_row c = "timestamp" ∨ code_row c = "time" ∨ code_row c = "date" ∨
      code_row c = "float8" ∨ code_row c = "int8") ∧ code_row c ≠ "text" := by
  have hne : code_row c ≠ "text" := by
    obtain ⟨n, f, d, l, t⟩ := c
    simp only [code_row]
    rw [if_neg h]
    cases f with
    | none => exact numericCode_ne_text none d l
    | some f =>
        dsimp only
        split_ifs <;> first | decide | exact numericCode_ne_text (some f) d l
  refine ⟨?_, hne⟩
  rcases code_row_total c with h1 | h1 | h1 | h1 | h1 | h1 <;> tauto

theorem code_row_numeric_never_text_witness :
    (code_row ⟨"ret", none, 4, 8, 1⟩ = "timestamp" ∨
      code_row ⟨"ret", none, 4, 8, 1⟩ = "time" ∨
      code_row ⟨"ret", none, 4, 8, 1⟩ = "date" ∨
      code_row ⟨"ret", none, 4, 8, 1⟩ = "float8" ∨
      code_row ⟨"ret", none, 4, 8, 1⟩ = "int8") ∧
      code_row ⟨"ret", none, 4, 8, 1⟩ ≠ "text" :=
  code_row_numeric_never_text ⟨"ret", none, 4, 8, 1⟩ (by decide)

/-- Model of Python `str.lower()` (character-wise lower-casing). -/
def pyLower (s : String) : String := String.mk (s.data.map Char.toLower)

/-- Python truthiness test for an optional-string parameter: `None` and
the empty string are falsy. -/
def pyTruthy : Option String → Bool
  | none => false
  | some s => decide (s ≠ "")

/-- Pattern `if not x: x = dflt` applied to an optional-string
parameter: the source's defaulting of `alt_table_name` to `table_name`. -/
def orDefault (o : Option String) (dflt : String) : String :=
  match o with
  | some s => if s = "" then dflt else s
  | none => dflt

/-- The SchemaPlan returned by `get_table_sql` when `return_sql` is true:
the CREATE TABLE statement and the datetime columns needing post-load
fix-up (the dict `{"sql": ..., "datetimes": ...}` of line 167). -/
structure SchemaPlan where
  sql : String
  datetimes : List String
deriving DecidableEq, Repr

/-- Embedding of `get_row_sql` (lines 88-94): one column clause of the
CREATE TABLE statement; a timestamp decision is rendered as text. -/
def get_row_sql (name postgres_type : String) : String :=
  let pt := if postgres_type = "timestamp" then "text" else postgres_type
  pyLower name ++ " " ++ pt

/-- Embedding of the pure tail of `get_table_sql` (lines 158-170): type
each column with `code_row`, render the clauses with `get_row_sql`
joined by a comma (pandas `.str.cat(sep=", ")`), and collect the
lower-cased names of the timestamp columns in order. -/
def get_table_sql_plan (table_name schema : String) (alt_table_name : Option String)
    (cols : List ColumnDescriptor) : SchemaPlan :=
  let alt := orDefault alt_table_name table_name
  let withTypes := cols.map fun c => (c.name, code_row c)
  { sql := "CREATE TABLE " ++ schema ++ "." ++ alt ++ " (" ++
      String.intercalate ", " (withTypes.map fun p => get_row_sql p.1 p.2) ++ ")"
  , datetimes := (withTypes.filter fun p => p.2 == "timestamp").map fun p => pyLower p.1 }

/-- Filtering and mapping after a map fuses into one pass. -/
theorem filter_then_map_after_map {α β γ : Type} (f : α → β) (p : β → Bool) (g : β → γ)
    (l : List α) :
    ((l.map f).filter p).map g =
      (l.filter fun a => p (f a)).map fun a => g (f a) := by
  induction l with
  | nil => rfl
  | cons a l ih =>
      simp only [List.map_cons, List.filter_cons]
      split <;> simp [ih]

example :
    get_table_sql_plan "dsf" "crsp" none
      [⟨"Id", none, 0, 8, 1⟩, ⟨"Ts", some "DATETIME20.", 0, 0, 1⟩] =
    { sql := "CREATE TABLE crsp.dsf (id int8, ts text)", datetimes := ["ts"] } := by decide

/-- C2: for every nonempty column sequence, the plan renders each column
clause as the lower-cased name, a space, and the decided type (timestamp
rendered as text), and the fixup list holds exactly the lower-cased
names of the timestamp-decided columns in original order. -/
theorem get_table_sql_plan_renders_columns (table_name schema : String)
    (alt : Option String) (cols : List ColumnDescriptor) (_h : cols ≠ []) :
    (get_table_sql_plan table_name schema alt cols).sql =
      "CREATE TABLE " ++ schema ++ "." ++ orDefault alt table_name ++ " (" ++
        String.intercalate ", "
          (cols.map fun c =>
            pyLower c.name ++ " " ++
              (if code_row c = "timestamp" then "text" else code_row c)) ++ ")" ∧
    (get_table_sql_plan table_name schema alt cols).datetimes =
      (cols.filter fun c => code_row c == "timestamp").map fun c => pyLower c.name := by
  constructor
  · simp only [get_table_sql_plan, List.map_map]
    rfl
  · simp only [get_table_sql_plan, filter_then_map_after_map]

theorem get_table_sql_plan_renders_columns_witness :
    (get_table_sql_plan "dsf" "crsp" none
        [⟨"Id", none, 0, 8, 1⟩, ⟨"Ts", some "DATETIME20.", 0, 0, 1⟩]).sql =
      "CREATE TABLE " ++ "crsp" ++ "." ++ orDefault none "dsf" ++ " (" ++
        String.intercalate ", "
          (([⟨"Id", none, 0, 8, 1⟩, ⟨"Ts", some "DATETIME20.", 0, 0, 1⟩] :
              List ColumnDescriptor).map fun c =>
            pyLower c.name ++ " " ++
              (if code_row c = "timestamp" then "text" else code_row c)) ++ ")" ∧
    (get_table_sql_plan "dsf" "crsp" none
        [⟨"Id", none, 0, 8, 1⟩, ⟨"Ts", some "DATETIME20.", 0, 0, 1⟩]).datetimes =
      (([⟨"Id", none, 0, 8, 1⟩, ⟨"Ts", some "DATETIME20.", 0, 0, 1⟩] :
          List ColumnDescriptor).filter fun c => code_row c == "timestamp").map
        fun c => pyLower c.name :=
  get_table_sql_plan_renders_columns "dsf" "crsp" none
    [⟨"Id", none, 0, 8, 1⟩, ⟨"Ts", some "DATETIME20.", 0, 0, 1⟩] (by decide)

/-- C4 counterexample: the source's schema translation does not fail on
an empty column sequence — no SchemaInferenceError (or any error) exists
in `get_table_sql`; on zero columns it returns a normal plan whose
create statement has an empty column list. -/
theorem get_table_sql_plan_empty_returns_plan :
    get_table_sql_plan "dsf" "crsp" none [] =
      { sql := "CREATE TABLE crsp.dsf ()", datetimes := [] } := by decide

/-- C4 amended: `get_table_sql` never raises on degenerate input; on an
empty column sequence it returns the plan with create statement
CREATE TABLE schema.table () and no fixups, and a column whose name is
empty is rendered (as an empty identifier), not rejected. -/
theorem get_table_sql_plan_degenerate_inputs (table_name schema : String)
    (alt : Option String) :
    (get_table_sql_plan table_name schema alt []).sql =
        "CREATE TABLE " ++ schema ++ "." ++ orDefault alt table_name ++ " ()" ∧
      (get_table_sql_plan table_name schema alt []).datetimes = [] ∧
      (get_table_sql_plan "t" "s" none [⟨"", none, 0, 8, 1⟩]).sql =
        "CREATE TABLE s.t ( int8)" := by
  have hlit : (" (" : String) ++ ("" ++ ")") = " ()" := rfl
  have h0 : String.intercalate ", "
      ((([] : List ColumnDescriptor).map fun c => (c.name, code_row c)).map
        fun p => get_row_sql p.1 p.2) = "" := rfl
  refine ⟨?_, rfl, by decide⟩
  show "CREATE TABLE " ++ schema ++ "." ++ orDefault alt table_name ++ " (" ++
      String.intercalate ", "
        ((([] : List ColumnDescriptor).map fun c => (c.name, code_row c)).map
          fun p => get_row_sql p.1 p.2) ++ ")" =
    "CREATE TABLE " ++ schema ++ "." ++ orDefault alt table_name ++ " ()"
  rw [h0, String.append_assoc _ " (" "", String.append_assoc _ (" (" ++ "") ")",
    String.append_assoc " (" "" ")", hlit]

/-- Python slice `s[0:k]` on a string: the first `k` characters. -/
def pySlice (s : String) (k : Nat) : String := String.mk (s.data.take k)

/-- Python `%s` interpolation of an optional string (`None` prints as
the text None). -/
def pyStr : Option String → String
  | none => "None"
  | some s => s

/-- Embedding of the SAS dataset-name derivation of `get_wrds_process`
(lines 227-230): concatenate schema and table name and cut the result to
no more than 32 characters (a SAS limitation). -/
def new_table_name (schema table_name : String) : String :=
  pySlice (schema ++ table_name) (min (schema ++ table_name).length 32)

/-- C8: the derived SAS object name is the concatenation of schema and
table name truncated to its first min(length, 32) characters — in
particular it never exceeds 32 characters. -/
theorem new_table_name_truncates (schema table_name : String) :
    (new_table_name schema table_name).length ≤ 32 ∧
      (new_table_name schema table_name).data = (schema ++ table_name).data.take 32 := by
  unfold new_table_name pySlice
  constructor
  · show ((schema ++ table_name).data.take (min (schema ++ table_name).length 32)).length ≤ 32
    rw [List.length_take]
    omega
  · show (schema ++ table_name).data.take (min (schema ++ table_name).length 32) =
      (schema ++ table_name).data.take 32
    have hlen : (schema ++ table_name).length = (schema ++ table_name).data.length := rfl
    rw [hlen]
    rcases le_total (schema ++ table_name).data.length 32 with hle | hge
    · rw [min_eq_left hle, List.take_length, List.take_of_length_le hle]
    · rw [min_eq_right hge]

example : new_table_name "comp" "fundaannualsupplementaldataxyz" = "compfundaannualsupplementaldatax" := by decide

/-- The `fix_cr_code` data-step snippet of `get_wrds_process` (lines
176-180): compress non-printable characters out of character fields. -/
def fix_cr_code_block : String :=
  "\n            array _char _character_;\n            do over _char;\n                _char = compress(_char, , \x27kw\x27);\n            end;"

/-- The literal data-step text (lines 247-251) that blanks special
missing numeric values to plain missing. -/
def missing_blank_snippet : String :=
  "do over allvars;\n                  if missing(allvars) then allvars = . ;\n                end;"

/-- Fixed template text of the fix-missing export request (lines
232-258), split at the `%s` holes and around `missing_blank_snippet`. -/
def fmA0 : String := "\n            options nosource nonotes;\n\n            "

def fmA1 : String := "\n\n            * Fix missing values;\n            data "

def fmA2 : String := ";\n                set "

def fmA4 : String := ";\n\n                * dsf_fix;\n                "

def fmA5 : String := "\n\n                * fix_cr_code;\n                "

def fmA6a : String := "\n\n                array allvars _numeric_ ;\n\n                "

def fmA6c : String := "\n            run;\n\n            * fund_names_fix;\n            "

def fmA7 : String := "\n\n            proc export data="

def fmA8 : String := " outfile=stdout dbms=csv;\n            run;"

/-- Fixed template text of the plain export request (lines 264-269),
split at the `%s` holes. -/
def seB0 : String := "\n            options nosource nonotes;\n            "

def seB1 : String := "\n\n            proc export data="

def seB2 : String := " outfile=stdout dbms=csv;\n            run;"

/-- Head and tail of the `fund_names` clean-up SQL (lines 218-223). -/
def fund_names_head : String :=
  "\n                proc sql;\n                    DELETE FROM "

def fund_names_tail : String :=
  "\n                    WHERE prxmatch(\x27\\D\x27, first_offer_dt) ge 1;\n                quit;"

/-- The SAS export request generated by `get_wrds_process` (lines
172-274): the effective `fix_missing` flag after the `fix_cr` forcing,
which of the two templates was used, and the generated SAS code. -/
structure SasExportRequest where
  fix_missing : Bool
  fixMissingPath : Bool
  sas_code : String
deriving DecidableEq, Repr

/-- Embedding of `get_wrds_process` (lines 172-274) up to the spawning
of the remote process: generation of the SAS export request. -/
def get_wrds_process_req (table_name schema : String) (wrds_id fpath : Option String)
    (drop keep : String) (fix_cr fix_missing : Bool) (obs rename : String) :
    SasExportRequest :=
  let fix_missing := if fix_cr then true else fix_missing
  let fix_cr_code := if fix_cr then fix_cr_code_block else ""
  let libname_stmt :=
    if pyTruthy fpath then "libname " ++ schema ++ " \x27" ++ pyStr fpath ++ "\x27;" else ""
  let rename_str := if rename ≠ "" then " rename=(" ++ rename ++ ")" else ""
  if fix_missing = true ∨ drop ≠ "" ∨ obs ≠ "" ∨ keep ≠ "" then
    let dsf_fix := if table_name = "dsf" then "format numtrd 8.;\n" else ""
    let obs_str := if obs ≠ "" then " obs=" ++ obs else ""
    let drop_str := "drop=" ++ drop ++ " "
    let keep_str := "keep=" ++ keep ++ " "
    let sas_table :=
      if obs ≠ "" ∨ drop ≠ "" ∨ rename ≠ "" ∨ keep ≠ "" then
        table_name ++ "(" ++ drop_str ++ keep_str ++ obs_str ++ rename_str ++ ")"
      else table_name
    let fund_names_fix :=
      if table_name = "fund_names" then
        fund_names_head ++ pyStr wrds_id ++ table_name ++ fund_names_tail
      else ""
    let new_table := new_table_name schema table_name
    { fix_missing := fix_missing
      fixMissingPath := true
      sas_code := fmA0 ++ libname_stmt ++ fmA1 ++ new_table ++ fmA2 ++ schema ++ "." ++
        sas_table ++ fmA4 ++ dsf_fix ++ fmA5 ++ fix_cr_code ++ fmA6a ++
        missing_blank_snippet ++ fmA6c ++ fund_names_fix ++ fmA7 ++ new_table ++ fmA8 }
  else
    { fix_missing := fix_missing
      fixMissingPath := false
      sas_code := seB0 ++ libname_stmt ++ seB1 ++ schema ++ "." ++ table_name ++ "(" ++
        rename_str ++ ")" ++ seB2 }

/-- A contiguous piece of the right summand is a contiguous piece of an
appended string. -/
theorem infix_str_append_left {x : List Char} (a b : String) (h : x <:+: b.data) :
    x <:+: (a ++ b).data := by
  rw [String.data_append]
  exact h.trans ⟨a.data, [], by simp⟩

/-- A contiguous piece of the left summand is a contiguous piece of an
appended string. -/
theorem infix_str_append_right {x : List Char} (a b : String) (h : x <:+: a.data) :
    x <:+: (a ++ b).data := by
  rw [String.data_append]
  exact h.trans ⟨[], b.data, by simp⟩

/-- C10: requesting control-character stripping (`fix_cr = true`) forces
missing-value normalization: for every combination of the remaining
options the generated request takes the fix-missing template, and its
SAS code contains both the character-compress step and the numeric
missing-value blanking step. -/
theorem fix_cr_forces_fix_missing (table_name schema : String)
    (wrds_id fpath : Option String) (drop keep : String) (fix_missing : Bool)
    (obs rename : String) :
    (get_wrds_process_req table_name schema wrds_id fpath drop keep true fix_missing
        obs rename).fix_missing = true ∧
    (get_wrds_process_req table_name schema wrds_id fpath drop keep true fix_missing
        obs rename).fixMissingPath = true ∧
    fix_cr_code_block.data <:+:
      (get_wrds_process_req table_name schema wrds_id fpath drop keep true fix_missing
        obs rename).sas_code.data ∧
    missing_blank_snippet.data <:+:
      (get_wrds_process_req table_name schema wrds_id fpath drop keep true fix_missing
        obs rename).sas_code.data := by
  simp only [get_wrds_process_req, if_pos rfl, true_or, if_true]
  refine ⟨trivial, trivial, ?_, ?_⟩ <;>
    repeat
      first
        | exact infix_str_append_left _ _ (List.infix_refl _)
        | apply infix_str_append_right

/-- One external operation performed by `wrds_update` against the remote
system or the destination database. -/
inductive DbEff where
  | getTableComment
  | getModifiedStr
  | describeTable
  | dropTable
  | createTable
  | exportRows
  | copyIntoTable
  | fixDatetimeColumn (col : String)
  | setComment (marker : String)
  | ownershipGrants
deriving DecidableEq, Repr

/-- Outcome of one `wrds_update` call: the configuration abort
(`print` + `quit()`, lines 429-430), the two non-sync statuses
(lines 444-448), or a completed sync stamping the given marker. -/
inductive UpdateOutcome where
  | configAbort
  | upToDate
  | remoteUnavailable
  | synced (stamped : String)
deriving DecidableEq, Repr

/-- Embedding of `wrds_update` (lines 420-476): configuration gate,
freshness decision, and — on the sync path — the sequence of external
operations of `wrds_to_pg` followed by the comment stamp and the
ownership/grant statements.  `storedComment` is the comment read from
the destination table (empty when the table does not exist),
`remoteModified` the Last-Modified string obtained from WRDS (empty when
unobtainable), and `now` the current-timestanp text used for local
imports. -/
def wrds_update_model (engine : Bool) (host dbname wrds_id fpath : Option String)
    (force : Bool) (storedComment remoteModified now : String)
    (table_name schema : String) (alt_table_name : Option String)
    (cols : List ColumnDescriptor) : List DbEff × UpdateOutcome :=
  if engine = false ∧ ¬(pyTruthy host = true ∧ pyTruthy dbname = true) then
    ([], .configAbort)
  else
    let pre := if pyTruthy wrds_id then [DbEff.getTableComment, DbEff.getModifiedStr] else []
    let comment := if pyTruthy wrds_id then storedComment else "Updated on " ++ now
    let modified := if pyTruthy wrds_id then remoteModified else "Updated on " ++ now
    if modified = comment ∧ force = false ∧ pyTruthy fpath = false then
      (pre, .upToDate)
    else if modified = "" ∧ force = false then
      (pre, .remoteUnavailable)
    else
      let plan := get_table_sql_plan table_name schema alt_table_name cols
      (pre ++ [DbEff.describeTable, DbEff.dropTable, DbEff.createTable, DbEff.exportRows,
          DbEff.copyIntoTable] ++ plan.datetimes.map DbEff.fixDatetimeColumn ++
        [DbEff.setComment modified, DbEff.ownershipGrants], .synced modified)

/-- The synthesized local-import marker is never the empty string. -/
theorem updated_on_ne_empty (now : String) : "Updated on " ++ now ≠ "" := by
  intro h
  have h1 := congrArg String.length h
  rw [String.length_append] at h1
  have h2 : ("Updated on " : String).length = 11 := rfl
  have h3 : ("" : String).length = 0 := rfl
  rw [h2, h3] at h1
  omega

/-- C7: with no engine supplied and the host or the database name
missing, `wrds_update` aborts with the missing-configuration outcome
before performing any remote request or destination-store operation
(the effect trace is empty). -/
theorem missing_config_aborts_before_any_operation
    (host dbname wrds_id fpath : Option String) (force : Bool)
    (storedComment remoteModified now table_name schema : String)
    (alt : Option String) (cols : List ColumnDescriptor)
    (h : pyTruthy host = false ∨ pyTruthy dbname = false) :
    wrds_update_model false host dbname wrds_id fpath force storedComment remoteModified
      now table_name schema alt cols = ([], UpdateOutcome.configAbort) := by
  unfold wrds_update_model
  rw [if_pos ⟨rfl, by rcases h with h | h <;> simp [h]⟩]

theorem missing_config_aborts_before_any_operation_witness :
    wrds_update_model false none (some "wrds") (some "wrds") none false "" "" "now"
      "dsf" "crsp" none [] = ([], UpdateOutcome.configAbort) :=
  missing_config_aborts_before_any_operation none (some "wrds") (some "wrds") none false
    "" "" "now" "dsf" "crsp" none [] (Or.inl rfl)

/-- C3 counterexample: with an engine supplied, remote mode, an empty
remote Last-Modified signal, `force = False`, no local file and an empty
stored marker (a never-synced table), `wrds_update` reports
"already up to date" — not the remote-unavailability status — because
line 443 compares the signal with the stored marker before line 446
tests it for emptiness. -/
theorem empty_remote_signal_reported_up_to_date :
    wrds_update_model true none none (some "wrds") none false "" "" "now" "dsf" "crsp"
      none [] = ([DbEff.getTableComment, DbEff.getModifiedStr], UpdateOutcome.upToDate) := by
  decide

/-- C3 amended: when the remote signal is empty, force is false and no
local file path is given, the decision is always "do not sync", but it
is reported as remote-unavailability only when the stored marker is
nonempty: equality with the stored marker is checked before emptiness,
so an empty stored marker is reported as "already up to date". -/
theorem empty_remote_signal_no_sync (host dbname : Option String) (wid : String)
    (hwid : wid ≠ "") (fpath : Option String) (hfp : pyTruthy fpath = false)
    (stored now table_name schema : String) (alt : Option String)
    (cols : List ColumnDescriptor) :
    wrds_update_model true host dbname (some wid) fpath false stored "" now table_name
        schema alt cols =
      ([DbEff.getTableComment, DbEff.getModifiedStr],
        if stored = "" then UpdateOutcome.upToDate else UpdateOutcome.remoteUnavailable) := by
  unfold wrds_update_model
  rw [if_neg (by simp)]
  have hw : pyTruthy (some wid) = true := by simp [pyTruthy, hwid]
  by_cases hs : stored = ""
  · subst hs
    simp [hw, hfp]
  · simp [hw, hfp, hs, Ne.symm hs]

theorem empty_remote_signal_no_sync_witness :
    wrds_update_model true none none (some "wrds") none false "Last modified: 01JAN2020"
        "" "now" "dsf" "crsp" none [] =
      ([DbEff.getTableComment, DbEff.getModifiedStr],
        if ("Last modified: 01JAN2020" : String) = "" then UpdateOutcome.upToDate
        else UpdateOutcome.remoteUnavailable) :=
  empty_remote_signal_no_sync none none "wrds" (by decide) none rfl
    "Last modified: 01JAN2020" "now" "dsf" "crsp" none []

/-- C6: a local-file import (file path supplied, no remote identity)
always decides "sync needed" — for every stored marker, every remote
signal and both force values — and the marker stamped on the table is
synthesized from the current timestamp. -/
theorem local_import_always_syncs (host dbname wrds_id fpath : Option String)
    (hw : pyTruthy wrds_id = false) (hf : pyTruthy fpath = true) (force : Bool)
    (stored remote now table_name schema : String) (alt : Option String)
    (cols : List ColumnDescriptor) :
    (wrds_update_model true host dbname wrds_id fpath force stored remote now table_name
        schema alt cols).2 = UpdateOutcome.synced ("Updated on " ++ now) ∧
      DbEff.setComment ("Updated on " ++ now) ∈
        (wrds_update_model true host dbname wrds_id fpath force stored remote now
          table_name schema alt cols).1 := by
  unfold wrds_update_model
  rw [if_neg (by simp)]
  simp only [hw, if_false, Bool.false_eq_true]
  rw [if_neg (by rw [hf]; rintro ⟨-, -, h⟩; cases h)]
  rw [if_neg (by rintro ⟨h, -⟩; exact updated_on_ne_empty now h)]
  refine ⟨by trivial, ?_⟩
  simp

theorem local_import_always_syncs_witness :
    (wrds_update_model true none none none (some "/tmp/funda.sas7bdat") false "a" "b"
        "2020-01-01 00:00:00" "funda" "comp" none []).2 =
      UpdateOutcome.synced ("Updated on " ++ "2020-01-01 00:00:00") ∧
      DbEff.setComment ("Updated on " ++ "2020-01-01 00:00:00") ∈
        (wrds_update_model true none none none (some "/tmp/funda.sas7bdat") false "a" "b"
          "2020-01-01 00:00:00" "funda" "comp" none []).1 :=
  local_import_always_syncs none none none (some "/tmp/funda.sas7bdat") rfl (by decide)
    false "a" "b" "2020-01-01 00:00:00" "funda" "comp" none []
